import Mathlib

/-!
Verification of the library-catalog data access layer
(`database.py`, `booklist.py`, `booksearch.py`).

The SQL engine (sqlite3) is an external collaborator: the embedding
models every statement string the code builds and hands to the
connection, together with the pre-execution control flow (argument
validation errors raised before anything is sent to the store).
An `Except String String` result is `Except.ok stmt` when the method
sends `stmt` to the connection, and `Except.error msg` when the
method raises before sending anything.
-/

/-- A scalar value eligible for SQL literal escaping: Python `None`,
`str` or `int` (`Union[str, int, Literal[None]]` in the source). -/
inductive Scalar where
  | none : Scalar
  | text (s : String) : Scalar
  | int (n : Int) : Scalar
deriving DecidableEq, Repr

/-- Single-quote character, written by code point to keep source text plain. -/
def single_quote : String := "\x27"

namespace Util

/-- Embeds `Util.escape_value` (database.py lines 20-43):
`None` becomes the bare literal `null`; a string is wrapped in single
quotes with no internal escaping; an int is rendered by `str`. -/
def escape_value : Scalar → String
  | Scalar.none => "null"
  | Scalar.text s => single_quote ++ s ++ single_quote
  | Scalar.int n => toString n

/-- Embeds `Util.escape_list` (database.py lines 45-65): element-wise
`escape_value` over a list, order preserving. -/
def escape_list (values : List Scalar) : List String :=
  values.map escape_value

end Util

/-- Embeds the `Table` state (database.py lines 96-105): a name and an
insertion-ordered column-name to type-declaration schema. The schema
dict is modelled as an association list in insertion order, matching
Python dict iteration order. The connection back-reference is external
and carried implicitly by the `Except`-valued operations. -/
structure Table where
  name : String
  schema : List (String × String)
deriving DecidableEq, Repr

namespace Table

/-- Embeds the statement built by `Table.initialize` (database.py
lines 126-140): `CREATE TABLE IF NOT EXISTS` over the schema pairs in
iteration order. -/
def init_stmt (t : Table) : String :=
  "CREATE TABLE IF NOT EXISTS `" ++ t.name ++ "` (" ++
    String.intercalate ", " (t.schema.map (fun x => x.1 ++ " " ++ x.2)) ++ ")"

/-- Embeds `Table.insert` (database.py lines 159-191). The `values`
argument is `Option`-valued because the source checks
`values == None or len(values) < 1` and raises before executing;
`Except.error` therefore means no statement reached the connection. -/
def insert (t : Table) (columns : List String)
    (values : Option (List (List Scalar))) : Except String String :=
  match values with
  | Option.none => Except.error "Invalid insert statement"
  | Option.some vs =>
    if vs.length < 1 then Except.error "Invalid insert statement"
    else
      Except.ok
        ("INSERT INTO `" ++ t.name ++ "` (" ++
          String.intercalate ", " columns ++ ") VALUES " ++
          String.intercalate ", "
            (vs.map (fun record =>
              "(" ++ String.intercalate ", " (Util.escape_list record) ++ ")")))

/-- Embeds `Table.select_where` (database.py lines 208-239): one
condition `col <op> <escaped value>` per pair in insertion order,
joined by the separator surrounded by single spaces. The source has no
validation at all, so the result is always `Except.ok`. -/
def select_where (t : Table) (pairs : List (String × Scalar))
    (op : String) (sep : String) : Except String String :=
  Except.ok
    ("SELECT * FROM `" ++ t.name ++ "` WHERE " ++
      String.intercalate (" " ++ sep ++ " ")
        (pairs.map (fun p => p.1 ++ " " ++ op ++ " " ++ Util.escape_value p.2)))

/-- Python default arguments of `select_where`: `op="="`, `sep="AND"`. -/
def select_where_default (t : Table) (pairs : List (String × Scalar)) :
    Except String String :=
  t.select_where pairs "=" "AND"

end Table

namespace Database

/-- The `books` table fixed in `Database.__init__` (database.py lines 408-412). -/
def books : Table :=
  ⟨"book",
    [("ISBN", "CHAR(13) PRIMARY KEY"),
     ("title", "VARCHAR(75)"),
     ("author", "VARCHAR(45)")]⟩

/-- The `book_copies` table fixed in `Database.__init__` (database.py lines 415-418). -/
def book_copies : Table :=
  ⟨"book_copy",
    [("book_id", "INTEGER PRIMARY KEY AUTOINCREMENT"),
     ("ISBN", "CHAR(13)")]⟩

/-- The `transactions` table fixed in `Database.__init__` (database.py lines 421-427). -/
def transactions : Table :=
  ⟨"transaction",
    [("transaction_id", "INTEGER PRIMARY KEY AUTOINCREMENT"),
     ("book_id", "INTEGER"),
     ("checkout_date", "DATETIME"),
     ("return_date", "DATETIME"),
     ("member_id", "INTEGER")]⟩

end Database

/-- Observable state relevant to `Database.drop`: whether the sqlite
connection is open and whether the backing store file exists. -/
structure DropState where
  conn_open : Bool
  file_exists : Bool
deriving DecidableEq, Repr

/-- Externally visible actions `Database.drop` performs, in order. -/
inductive FsEvent where
  | close_conn : FsEvent
  | remove_file : FsEvent
deriving DecidableEq, Repr

namespace Database

/-- State right after `Database(name, drop=True)`: `sqlite3.connect`
has opened the connection and created the backing store file. -/
def fresh : DropState := ⟨true, true⟩

/-- Embeds `Database.drop` (database.py lines 450-466). The parameter
`remove_ok` is the outcome of the external `os.remove` call (true:
deletion succeeds; false: it raises, which the bare `except` swallows).
Returns the ordered list of actions taken, the resulting state, and
the boolean return value. The connection is closed first in every
branch; the removal attempt happens only when the file-existence check
passes, and a failing removal is converted to a `false` return. -/
def drop (s : DropState) (remove_ok : Bool) :
    List FsEvent × DropState × Bool :=
  if s.file_exists = false then
    ([FsEvent.close_conn], ⟨false, s.file_exists⟩, false)
  else if remove_ok then
    ([FsEvent.close_conn, FsEvent.remove_file], ⟨false, false⟩, true)
  else
    ([FsEvent.close_conn, FsEvent.remove_file], ⟨false, s.file_exists⟩, false)

end Database

/-- Embeds the `Book` value object (booklist.py lines 18-29). -/
structure Book where
  ISBN : String
  title : String
  author : String
deriving DecidableEq, Repr

namespace Book

/-- Embeds `Book.from_record` (booklist.py lines 31-49). -/
def from_record (record : String × String × String) : Book :=
  ⟨record.1, record.2.1, record.2.2⟩

/-- Embeds `Book.from_record_list` (booklist.py lines 51-69). -/
def from_record_list (record_list : List (String × String × String)) : List Book :=
  record_list.map from_record

end Book

/-- Embeds the `BookCopy` value object (booklist.py lines 72-83). -/
structure BookCopy where
  id : Int
  book : Book
deriving DecidableEq, Repr

namespace BookCopy

/-- Embeds `BookCopy.from_record` (booklist.py lines 85-107): the id is
`record[0]`; the remaining columns of the row (modelled as the second
component) are ignored, and the `book` field is the argument itself. -/
def from_record (record : Int × List Scalar) (book : Book) : BookCopy :=
  ⟨record.1, book⟩

/-- Embeds `BookCopy.from_record_list` (booklist.py lines 109-132). -/
def from_record_list (record_list : List (Int × List Scalar))
    (book : Book) : List BookCopy :=
  record_list.map (fun record => from_record record book)

end BookCopy

/-- Embeds `search_book` (booksearch.py lines 19-49): builds the single
pattern `%text%`, queries the books table with `op="LIKE"`, `sep="OR"`
over the pairs `title` then `author` (dict insertion order), and maps
the rows the connection returned to `Book` objects. The first component
is the statement handed to the connection, the second the result. -/
def search_book (search_string : String)
    (records : List (String × String × String)) :
    Except String String × List Book :=
  let like_matcher := "%" ++ search_string ++ "%"
  (Database.books.select_where
      [("title", Scalar.text like_matcher), ("author", Scalar.text like_matcher)]
      "LIKE" "OR",
   Book.from_record_list records)

/-- Embeds `list_copies_of` (booklist.py lines 150-164): queries the
book_copies table with the single pair `ISBN: book.ISBN` and the
Python-default operator and joiner, and maps the rows the connection
returned to `BookCopy(row[0], book)` with the caller-supplied book
object. The first component is the statement handed to the connection,
the second the result. -/
def list_copies_of (book : Book) (records : List (Int × List Scalar)) :
    Except String String × List BookCopy :=
  (Database.book_copies.select_where_default [("ISBN", Scalar.text book.ISBN)],
   BookCopy.from_record_list records book)

/-- Claim C1: for every table name, every non-empty insertion-ordered
pairs mapping, every operator and joiner, `select_where` sends the
statement built from `SELECT * FROM`, the back-tick-quoted name,
`WHERE`, and the conditions `col op escaped-value` in insertion order
joined by the joiner surrounded by single spaces, with values escaped
by `escape_value`; the Python defaults are `op="="` and `sep="AND"`. -/
theorem C1_select_where_statement (t : Table) (pairs : List (String × Scalar))
    (op sep : String) (_hne : pairs ≠ []) :
    t.select_where pairs op sep =
      Except.ok ("SELECT * FROM `" ++ t.name ++ "` WHERE " ++
        String.intercalate (" " ++ sep ++ " ")
          (pairs.map (fun p => p.1 ++ " " ++ op ++ " " ++ Util.escape_value p.2))) ∧
    t.select_where_default pairs = t.select_where pairs "=" "AND" :=
  ⟨rfl, rfl⟩

/-- Witness for C1 at the books table with one LIKE condition. -/
theorem C1_select_where_statement_witness :
    ([(("title" : String), Scalar.text "Jennifer")] ≠ ([] : List (String × Scalar))) ∧
    (Database.books.select_where [("title", Scalar.text "Jennifer")] "LIKE" "OR" =
      Except.ok "SELECT * FROM `book` WHERE title LIKE \x27Jennifer\x27" ∧
     Database.books.select_where_default [("title", Scalar.text "Jennifer")] =
      Database.books.select_where [("title", Scalar.text "Jennifer")] "=" "AND") :=
  ⟨by decide,
   C1_select_where_statement Database.books [("title", Scalar.text "Jennifer")]
     "LIKE" "OR" (by decide)⟩

/-- Claim C2: `escape_value` maps the absent value to the unquoted
literal `null`, wraps text in single quotes with no escaping of
embedded quote characters, and renders an integer in decimal;
in particular `escape_value "bob" = \x27bob\x27`, `escape_value 12 = "12"`,
and an embedded single quote is kept intact inside the delimiters. -/
theorem C2_escape_value_cases :
    Util.escape_value Scalar.none = "null" ∧
    (∀ s : String, Util.escape_value (Scalar.text s) = single_quote ++ s ++ single_quote) ∧
    (∀ n : Int, Util.escape_value (Scalar.int n) = toString n) ∧
    Util.escape_value (Scalar.text "bob") = "\x27bob\x27" ∧
    Util.escape_value (Scalar.int 12) = "12" ∧
    Util.escape_value (Scalar.text "O\x27Brien") = "\x27O\x27Brien\x27" :=
  ⟨rfl, fun _ => rfl, fun _ => rfl, rfl, rfl, rfl⟩

/-- Claim C3: `insert` fails with the invalid-argument error when the
rows argument is absent or the empty list, without producing any
statement for the connection; for every non-empty rows list it sends
the single multi-row INSERT statement with each row escaped in order. -/
theorem C3_insert_validation :
    ∀ (t : Table) (columns : List String),
      t.insert columns Option.none = Except.error "Invalid insert statement" ∧
      t.insert columns (Option.some []) = Except.error "Invalid insert statement" ∧
      (∀ (v : List Scalar) (vs : List (List Scalar)),
        t.insert columns (Option.some (v :: vs)) =
          Except.ok ("INSERT INTO `" ++ t.name ++ "` (" ++
            String.intercalate ", " columns ++ ") VALUES " ++
            String.intercalate ", " ((v :: vs).map (fun record =>
              "(" ++ String.intercalate ", " (Util.escape_list record) ++ ")")))) :=
  fun _ _ => ⟨rfl, rfl, fun _ _ => rfl⟩

/-- Counterexample to claim C4: `select_where` with an empty pairs
mapping is not rejected with an invalid-argument error; the call
sends the malformed statement with an empty condition list to the
connection. -/
theorem C4_counterexample :
    Database.books.select_where [] "=" "AND" =
      Except.ok "SELECT * FROM `book` WHERE " :=
  rfl

/-- Claim C4 as amended: `select_where` with an empty predicate set is
not rejected; for every table, operator and joiner it builds the
statement `SELECT * FROM (name) WHERE ` with an empty condition list
and hands it to the connection, so the failure surfaces only as a
store-level error when the store parses it. -/
theorem C4_empty_pairs_not_rejected :
    ∀ (t : Table) (op sep : String),
      t.select_where [] op sep =
        Except.ok ("SELECT * FROM `" ++ t.name ++ "` WHERE ") := by
  intro t op sep
  simp [Table.select_where, String.intercalate, String.append_empty]

/-- Claim C5: `search_book` builds the single pattern `%text%`, queries
the books table with the two pairs title then author, operator LIKE and
joiner OR, and maps each returned row to a `Book`. -/
theorem C5_search_book_spec :
    ∀ (s : String) (records : List (String × String × String)),
      (search_book s records).1 =
        Except.ok ("SELECT * FROM `book` WHERE title LIKE " ++ single_quote ++
          "%" ++ s ++ "%" ++ single_quote ++ " OR author LIKE " ++ single_quote ++
          "%" ++ s ++ "%" ++ single_quote) ∧
      (search_book s records).2 = records.map Book.from_record := by
  intro s records
  refine ⟨?_, rfl⟩
  simp only [search_book, Table.select_where, Database.books, Util.escape_value,
    single_quote, List.map_cons, List.map_nil, String.intercalate,
    String.intercalate.go, Except.ok.injEq, String.append_assoc]
  rfl

/-- Claim C6: `drop` closes the connection unconditionally and first,
before any deletion attempt; on a freshly created catalog the first
call returns true and the second consecutive call returns false. -/
theorem C6_drop_behavior :
    (∀ (s : DropState) (r : Bool),
        ((Database.drop s r).1).head? = some FsEvent.close_conn ∧
        ((Database.drop s r).2.1).conn_open = false) ∧
    (Database.drop Database.fresh true).2.2 = true ∧
    (∀ r : Bool, (Database.drop (Database.drop Database.fresh true).2.1 r).2.2 = false) := by
  refine ⟨fun s r => ?_, rfl, fun r => rfl⟩
  obtain ⟨co, fe⟩ := s
  cases fe <;> cases r <;> exact ⟨rfl, rfl⟩

/-- Claim C7: every copy returned by `list_copies_of` carries the
caller-supplied book object itself, whatever the remaining columns of
the row are, and its id is the first field of its row. -/
theorem C7_list_copies_share_book :
    ∀ (book : Book) (records : List (Int × List Scalar)),
      (∀ c ∈ (list_copies_of book records).2, c.book = book) ∧
      ((list_copies_of book records).2).map (fun c => c.id) =
        records.map (fun r => r.1) ∧
      (list_copies_of book records).2 =
        records.map (fun r => BookCopy.mk r.1 book) := by
  intro book records
  refine ⟨?_, ?_, rfl⟩
  · intro c hc
    simp only [list_copies_of, BookCopy.from_record_list, BookCopy.from_record,
      List.mem_map] at hc
    obtain ⟨r, _, rfl⟩ := hc
    rfl
  · simp [list_copies_of, BookCopy.from_record_list, BookCopy.from_record]

/-- Witness for C7 at a concrete book and a one-row result containing
an extra column beyond the id. -/
theorem C7_list_copies_share_book_witness :
    (BookCopy.mk 5 (Book.mk "1" "t" "a") ∈
      (list_copies_of (Book.mk "1" "t" "a") [(5, [Scalar.text "x"])]).2) ∧
    (BookCopy.mk 5 (Book.mk "1" "t" "a")).book = Book.mk "1" "t" "a" :=
  ⟨by decide,
   (C7_list_copies_share_book (Book.mk "1" "t" "a") [(5, [Scalar.text "x"])]).1
     (BookCopy.mk 5 (Book.mk "1" "t" "a")) (by decide)⟩

/-- Claim C8: escaping the empty text value yields two single-quote
delimiters with nothing between them, not the null literal: empty text
is distinguished from the absent value. -/
theorem C8_escape_empty_text :
    Util.escape_value (Scalar.text "") = "\x27\x27" ∧
    Util.escape_value (Scalar.text "") ≠ Util.escape_value Scalar.none :=
  ⟨rfl, by decide⟩

/-- Claim C9: once the file-existence check passes, a failure of the
external remove call is swallowed: `drop` still performs the removal
attempt and returns the boolean false rather than propagating the
error. -/
theorem C9_remove_error_swallowed :
    ∀ s : DropState, s.file_exists = true →
      (Database.drop s false).2.2 = false ∧
      (Database.drop s false).1 = [FsEvent.close_conn, FsEvent.remove_file] := by
  intro s h
  obtain ⟨co, fe⟩ := s
  cases fe
  · exact Bool.noConfusion h
  · exact ⟨rfl, rfl⟩

/-- Witness for C9 on the fresh-catalog state with a failing remove. -/
theorem C9_remove_error_swallowed_witness :
    Database.fresh.file_exists = true ∧
    (Database.drop Database.fresh false).2.2 = false :=
  ⟨rfl, (C9_remove_error_swallowed Database.fresh rfl).1⟩

/-- Claim C10: the three statement builders are deterministic: equal
inputs produce character-for-character identical statements across two
runs of `init_stmt`, `insert` and `select_where`. -/
theorem C10_builders_deterministic :
    ∀ (t t2 : Table) (c c2 : List String) (v v2 : Option (List (List Scalar)))
      (p p2 : List (String × Scalar)) (op op2 sep sep2 : String),
      t = t2 → c = c2 → v = v2 → p = p2 → op = op2 → sep = sep2 →
      (Table.init_stmt t = Table.init_stmt t2 ∧
       t.insert c v = t2.insert c2 v2 ∧
       t.select_where p op sep = t2.select_where p2 op2 sep2) := by
  intro t t2 c c2 v v2 p p2 op op2 sep sep2 ht hc hv hp hop hsep
  subst ht; subst hc; subst hv; subst hp; subst hop; subst hsep
  exact ⟨rfl, rfl, rfl⟩

/-- Witness for C10 at the books table with concrete arguments. -/
theorem C10_builders_deterministic_witness :
    Table.init_stmt Database.books = Table.init_stmt Database.books ∧
    Database.books.insert ["ISBN"] (Option.some [[Scalar.int 1]]) =
      Database.books.insert ["ISBN"] (Option.some [[Scalar.int 1]]) ∧
    Database.books.select_where [("title", Scalar.text "x")] "=" "AND" =
      Database.books.select_where [("title", Scalar.text "x")] "=" "AND" :=
  C10_builders_deterministic Database.books Database.books ["ISBN"] ["ISBN"]
    (Option.some [[Scalar.int 1]]) (Option.some [[Scalar.int 1]])
    [("title", Scalar.text "x")] [("title", Scalar.text "x")] "=" "=" "AND" "AND"
    rfl rfl rfl rfl rfl rfl
